import Mathlib

/-!
Shallow embedding of the client-side UI state logic of the NeuraVault MCP
frontend: the navigation bar component (mobile menu flag, scroll-threshold
style flag, route highlighting), the code example viewer component (active
tab, per-example copied flags with 2000ms reset timers), the router route
table, and the one-shot entrance-animation visibility latch.
-/

/-- State of the Navigation component: `isOpen` is the mobile menu flag
(`useState(false)`), `scrolled` the scroll-threshold style flag
(`useState(false)`), `currentPath` the router location path read via
`useLocation()`. -/
structure NavState where
  isOpen : Bool
  scrolled : Bool
  currentPath : String
deriving DecidableEq

/-- Initial Navigation state at mount, on the landing route. -/
def initNav : NavState := ⟨false, false, "/"⟩

/-- A navigation entry: `navItems` element with display name and path. -/
structure NavItem where
  name : String
  path : String
deriving DecidableEq

/-- The fixed nav entries from the Navigation component. -/
def navItems : List NavItem :=
  [⟨"Home", "/"⟩, ⟨"Docs", "/docs"⟩, ⟨"Studio", "/studio"⟩]

/-- Events the Navigation component reacts to. Desktop nav links carry no
onClick handler (they only navigate); mobile nav links additionally run
`setIsOpen(false)`; the logo link navigates to the root path with no
onClick handler; the mobile toggle button flips `isOpen`; scroll events
run `setScrolled(window.scrollY > 50)`. -/
inductive NavEvent where
  | scroll (offset : Nat)
  | toggleMenu
  | desktopNavClick (path : String)
  | mobileNavClick (path : String)
  | logoClick

/-- One event-handler step of the Navigation component. -/
def navStep (s : NavState) : NavEvent → NavState
  | .scroll offset => { s with scrolled := decide (offset > 50) }
  | .toggleMenu => { s with isOpen := !s.isOpen }
  | .desktopNavClick p => { s with currentPath := p }
  | .mobileNavClick p => { s with isOpen := false, currentPath := p }
  | .logoClick => { s with currentPath := "/" }

/-- Active-link test used by both the desktop and the mobile nav rendering:
`location.pathname === item.path`. -/
def isActive (itemPath currentPath : String) : Bool :=
  currentPath == itemPath

/-- The two pages registered in the router. -/
inductive Page where
  | home
  | docs
deriving DecidableEq

/-- Route matching of the App router: only the paths for the landing page
and the docs page are registered; any other path matches no route element. -/
def matchRoute (p : String) : Option Page :=
  if p = "/" then some .home
  else if p = "/docs" then some .docs
  else none

/-- A code example entry of the CodeExamples component. The literal code
text of each example is elided here: only the example id flows into the
state transitions (the text is passed to the clipboard collaborator and
rendered verbatim, never inspected). -/
structure Example where
  id : String
  title : String
  description : String
  language : String
deriving DecidableEq

/-- The three declared examples, in declaration order. -/
def examples : List Example :=
  [⟨"multi-llm", "Multi-LLM Memory",
    "Share memories across OpenAI, Claude, Gemini, and Grok", "bash"⟩,
   ⟨"python-api", "Cross-Model Python API",
    "Manage memories across multiple LLMs in Python", "python"⟩,
   ⟨"openai-plugin", "OpenAI Plugin Setup",
    "Configure as a ChatGPT plugin for automatic memory management", "json"⟩]

/-- The declared example identifiers. -/
def exampleIds : List String := examples.map (fun e => e.id)

/-- Lookup of the rendered example:
`examples.find(ex => ex.id === activeTab) || examples[0]`. -/
def activeExample (tab : String) : Example :=
  (examples.find? (fun ex => ex.id == tab)).getD examples[0]

/-- A pending `setTimeout` reset: the example id captured at schedule time
and the absolute time (ms) at which the callback fires. -/
structure Timer where
  id : String
  fireAt : Nat
deriving DecidableEq

/-- State of the CodeExamples component: `activeTab` from
`useState(examples[0].id)`, `copied` the `copiedStates` record (a missing
key reads as false), pending reset timers, and the current time in ms. -/
structure CEState where
  activeTab : String
  copied : String → Bool
  timers : List Timer
  now : Nat

/-- Initial CodeExamples state at mount. -/
def initCE : CEState := ⟨examples[0].id, fun _ => false, [], 0⟩

/-- Record update `(prev => (...prev with key id set to b))`. -/
def updateFlag (m : String → Bool) (id : String) (b : Bool) : String → Bool :=
  fun k => if k = id then b else m k

/-- Events of the CodeExamples component: a tab-button click
(`setActiveTab(example.id)`), a copy-button click whose clipboard write
resolves (`copyToClipboard` success branch), one whose clipboard write
rejects (catch branch: the error is logged, nothing else happens), and the
passage of `dt` ms of time after which every due timer callback runs. -/
inductive CEEvent where
  | select (id : String)
  | copySuccess
  | copyFail
  | advance (dt : Nat)

/-- Run every due timer callback: each sets the captured id flag to false,
in schedule order, and is removed from the pending list. -/
def fireDue (s : CEState) : CEState :=
  { s with
    copied := (s.timers.filter (fun t => decide (t.fireAt ≤ s.now))).foldl
      (fun c t => updateFlag c t.id false) s.copied,
    timers := s.timers.filter (fun t => decide (s.now < t.fireAt)) }

/-- One event step of the CodeExamples component. A successful copy sets
the active example id flag true and appends a one-shot reset timer for
that same id firing 2000ms later; a failed copy changes nothing; time
advancing fires every timer that has come due. -/
def step (s : CEState) : CEEvent → CEState
  | .select id => { s with activeTab := id }
  | .copySuccess =>
      let ex := activeExample s.activeTab
      { s with
        copied := updateFlag s.copied ex.id true,
        timers := s.timers ++ [⟨ex.id, s.now + 2000⟩] }
  | .copyFail => s
  | .advance dt => fireDue { s with now := s.now + dt }

/-- Run a list of events from a state. -/
def run (s : CEState) (evts : List CEEvent) : CEState :=
  evts.foldl step s

/-- An event that can actually arise from the rendered UI: tab-button
clicks only ever pass a declared example id. -/
def validEvent : CEEvent → Bool
  | .select id => exampleIds.contains id
  | _ => true

/-- Modelled from the spec: the framer-motion entrance-animation visibility
flag with viewport once set to true (the library implementing it is not
part of this repository). One intersection observation: the flag becomes
true when the section intersects the viewport and is never reset. -/
def visStep (visible intersecting : Bool) : Bool :=
  visible || intersecting

/-- A run of intersection observations starting from a hidden section. -/
def visRun (obs : List Bool) : Bool :=
  obs.foldl visStep false

/-! ## Theorems -/

/-- Claim C1 fails as stated: from the reachable state with the mobile
menu open, clicking a desktop nav link (which carries no onClick handler)
changes the current path while leaving the mobile menu flag true. -/
theorem mobileMenu_desktop_nav_counterexample :
    (navStep initNav .toggleMenu).isOpen = true ∧
    (navStep (navStep initNav .toggleMenu) (.desktopNavClick "/docs")).currentPath ≠
      (navStep initNav .toggleMenu).currentPath ∧
    (navStep (navStep initNav .toggleMenu) (.desktopNavClick "/docs")).isOpen = true := by
  decide

/-- Claim C1 amended: clicking a mobile nav link closes the mobile menu
and navigates to the link target; clicking a desktop nav link navigates
but leaves the mobile menu flag unchanged. -/
theorem mobileMenu_close_on_mobile_nav (s : NavState) (p : String) :
    (navStep s (.mobileNavClick p)).isOpen = false ∧
    (navStep s (.mobileNavClick p)).currentPath = p ∧
    (navStep s (.desktopNavClick p)).isOpen = s.isOpen := ⟨rfl, rfl, rfl⟩

/-- Claim C3: after a scroll event with offset at most 50px the scrolled
flag is false; after one with offset strictly greater than 50px it is
true; and the resulting flag is a function of the offset only, independent
of the prior state. -/
theorem scrolled_threshold (s s2 : NavState) (o : Nat) :
    (o ≤ 50 → (navStep s (.scroll o)).scrolled = false) ∧
    (50 < o → (navStep s (.scroll o)).scrolled = true) ∧
    (navStep s (.scroll o)).scrolled = (navStep s2 (.scroll o)).scrolled := by
  refine ⟨fun h => ?_, fun h => ?_, rfl⟩ <;> simp [navStep] <;> omega

/-- Witness for C3 at offset 30 from two distinct prior states. -/
theorem scrolled_threshold_witness :
    ((30 ≤ 50 → (navStep initNav (.scroll 30)).scrolled = false) ∧
     (50 < 30 → (navStep initNav (.scroll 30)).scrolled = true) ∧
     (navStep initNav (.scroll 30)).scrolled =
       (navStep ⟨true, true, "/docs"⟩ (.scroll 30)).scrolled) :=
  scrolled_threshold initNav ⟨true, true, "/docs"⟩ 30

/-- Claim C5: a copy whose clipboard write rejects leaves the CodeExamples
state entirely unchanged: no flag is set and no timer is scheduled. -/
theorem copy_fail_state_unchanged (s : CEState) :
    step s .copyFail = s := rfl

/-- Claim C7: each fixed nav entry renders active iff its path equals the
current path; the Studio path is a nav entry, yet the router registers no
route for it, so navigating there matches no route element. -/
theorem nav_active_and_studio_dead (item : NavItem) (_hmem : item ∈ navItems)
    (p : String) :
    (isActive item.path p = true ↔ p = item.path) ∧
    matchRoute "/studio" = none ∧
    (NavItem.mk "Studio" "/studio") ∈ navItems := by
  refine ⟨?_, by decide, by decide⟩
  simp [isActive]

/-- Witness for C7 at the Home entry and the docs path. -/
theorem nav_active_and_studio_dead_witness :
    ((isActive (NavItem.mk "Home" "/").path "/docs" = true ↔
        "/docs" = (NavItem.mk "Home" "/").path) ∧
     matchRoute "/studio" = none ∧
     (NavItem.mk "Studio" "/studio") ∈ navItems) :=
  nav_active_and_studio_dead (NavItem.mk "Home" "/") (by decide) "/docs"

/-- Claim C8: selecting the same example twice equals selecting it once,
and a select leaves the copied flags and every pending reset timer
untouched. -/
theorem select_idempotent (s : CEState) (id : String) :
    step (step s (.select id)) (.select id) = step s (.select id) ∧
    (step s (.select id)).timers = s.timers ∧
    (step s (.select id)).copied = s.copied := ⟨rfl, rfl, rfl⟩

/-- Claim C9: the visibility flag is a one-shot latch: an intersecting
observation makes it true, once true it stays true under any later
observations, and a run containing an intersecting observation ends true. -/
theorem visibility_latch (v : Bool) (obs pre post : List Bool) :
    visStep v true = true ∧
    (v = true → obs.foldl visStep v = true) ∧
    visRun (pre ++ true :: post) = true := by
  have hstay : ∀ l : List Bool, l.foldl visStep true = true := by
    intro l
    induction l with
    | nil => rfl
    | cons b bs ih => simpa [visStep] using ih
  refine ⟨by simp [visStep], fun hv => hv ▸ hstay obs, ?_⟩
  show (pre ++ true :: post).foldl visStep false = true
  rw [List.foldl_append, List.foldl_cons]
  simpa [visStep] using hstay post

/-- Witness for C9: a latched flag survives further observations, and a
run that enters the viewport once ends visible. -/
theorem visibility_latch_witness :
    (visStep true true = true ∧
     (true = true → ([false, true, false] : List Bool).foldl visStep true = true) ∧
     visRun ([false, false] ++ true :: [false, false]) = true) :=
  visibility_latch true [false, true, false] [false, false] [false, false]

/-- Claim C10: the rendered example is always a member of the declared
list, and when the active tab matches no declared id the lookup falls back
to the first declared example. -/
theorem activeExample_total (tab : String) :
    activeExample tab ∈ examples ∧
    (examples.find? (fun ex => ex.id == tab) = none →
      activeExample tab = examples[0]) := by
  refine ⟨?_, fun h => by simp [activeExample, h]⟩
  unfold activeExample
  cases h : examples.find? (fun ex => ex.id == tab) with
  | none => simp [h]
  | some ex => simpa [h] using List.mem_of_find?_eq_some h

/-- Witness for C10 at a tab value matching no declared id. -/
theorem activeExample_total_witness :
    (activeExample "bogus" ∈ examples ∧
     (examples.find? (fun ex => ex.id == "bogus") = none →
       activeExample "bogus" = examples[0])) :=
  activeExample_total "bogus"

/-- The example lookup returns an example carrying the looked-up id
whenever that id is a declared one. -/
theorem activeExample_id_of_mem (X : String) (hX : X ∈ exampleIds) :
    (activeExample X).id = X := by
  have h3 : X = "multi-llm" ∨ X = "python-api" ∨ X = "openai-plugin" := by
    simpa [exampleIds, examples] using hX
  rcases h3 with rfl | rfl | rfl <;> decide

/-- Claim C2: a reset scheduled while example X is active still targets X
after the selection moves to a different id Y before the timer fires: when
the timer fires, the flag of X is reset to false and the flag of Y is left
unchanged. -/
theorem copy_timer_captures_id (s : CEState) (X Y : String)
    (hX : X ∈ exampleIds) (hact : s.activeTab = X) (hY : Y ≠ X)
    (ht : s.timers = []) :
    (run s [.copySuccess, .select Y, .advance 2000]).copied X = false ∧
    (run s [.copySuccess, .select Y, .advance 2000]).copied Y = s.copied Y := by
  have hid := activeExample_id_of_mem X hX
  simp [run, step, fireDue, updateFlag, hact, hid, ht, hY]

/-- Witness for C2: copy while the first example is active, switch tabs,
then let the timer fire. -/
theorem copy_timer_captures_id_witness :
    ("multi-llm" ∈ exampleIds ∧ initCE.activeTab = "multi-llm" ∧
      "python-api" ≠ "multi-llm" ∧ initCE.timers = []) ∧
    ((run initCE [.copySuccess, .select "python-api", .advance 2000]).copied
        "multi-llm" = false ∧
     (run initCE [.copySuccess, .select "python-api", .advance 2000]).copied
        "python-api" = initCE.copied "python-api") :=
  ⟨⟨by decide, rfl, by decide, rfl⟩,
   copy_timer_captures_id initCE "multi-llm" "python-api" (by decide) rfl
     (by decide) rfl⟩

/-- Claim C4 fails as stated: with two successful copies of the same
example 1000ms apart, the first reset timer fires 1000ms after the second
copy and resets the flag early, because a repeat copy cancels no pending
timer. -/
theorem copy_reset_early_counterexample :
    (run initCE [.copySuccess, .advance 1000, .copySuccess]).copied
      "multi-llm" = true ∧
    (run initCE [.copySuccess, .advance 1000, .copySuccess, .advance 1000]).copied
      "multi-llm" = false ∧
    (run initCE [.copySuccess, .advance 1000, .copySuccess, .advance 1000]).now =
      (run initCE [.copySuccess, .advance 1000, .copySuccess]).now + 1000 := by
  decide

/-- Claim C4 amended: provided no reset timer is pending when the copy
resolves, the active example flag is true immediately after a successful
copy, still true after any delay of strictly less than 2000ms, and false
once the 2000ms timer fires. With a timer for the same id already pending
from an earlier copy, the flag can go false earlier than 2000ms after the
later copy. -/
theorem copy_reset_after_2000 (s : CEState) (X : String) (dt : Nat)
    (hX : X ∈ exampleIds) (hact : s.activeTab = X) (ht : s.timers = []) :
    (step s .copySuccess).copied X = true ∧
    (dt < 2000 → (run s [.copySuccess, .advance dt]).copied X = true) ∧
    (run s [.copySuccess, .advance 2000]).copied X = false := by
  have hid := activeExample_id_of_mem X hX
  refine ⟨?_, fun hdt => ?_, ?_⟩
  · simp [step, updateFlag, hact, hid]
  · have hlt : ¬ (s.now + 2000 ≤ s.now + dt) := by omega
    simp [run, step, fireDue, updateFlag, hact, hid, ht, hlt]
  · simp [run, step, fireDue, updateFlag, hact, hid, ht]

/-- Witness for C4 amended: a single copy of the first example from the
mount state, checked 1000ms and 2000ms later. -/
theorem copy_reset_after_2000_witness :
    ("multi-llm" ∈ exampleIds ∧ initCE.activeTab = "multi-llm" ∧
      initCE.timers = []) ∧
    ((step initCE .copySuccess).copied "multi-llm" = true ∧
     (1000 < 2000 →
       (run initCE [.copySuccess, .advance 1000]).copied "multi-llm" = true) ∧
     (run initCE [.copySuccess, .advance 2000]).copied "multi-llm" = false) :=
  ⟨⟨by decide, rfl, rfl⟩,
   copy_reset_after_2000 initCE "multi-llm" 1000 (by decide) rfl rfl⟩

/-- Claim C6: the active tab starts as the first declared example id and,
along any run of UI events (tab clicks only ever carry declared ids),
stays in the set of declared example ids. -/
theorem activeTab_always_valid (evts : List CEEvent)
    (h : ∀ e ∈ evts, validEvent e = true) :
    initCE.activeTab = "multi-llm" ∧
    (run initCE evts).activeTab ∈ exampleIds := by
  refine ⟨rfl, ?_⟩
  have key : ∀ (l : List CEEvent) (s : CEState),
      (∀ e ∈ l, validEvent e = true) → s.activeTab ∈ exampleIds →
      (run s l).activeTab ∈ exampleIds := by
    intro l
    induction l with
    | nil => intro s _ hs; exact hs
    | cons e es ih =>
        intro s hl hs
        have he : validEvent e = true := hl e (List.mem_cons_self e es)
        have hes : ∀ x ∈ es, validEvent x = true :=
          fun x hx => hl x (List.mem_cons_of_mem e hx)
        have hstep : (step s e).activeTab ∈ exampleIds := by
          cases e with
          | select id => exact List.mem_of_elem_eq_true he
          | copySuccess => simpa [step] using hs
          | copyFail => simpa [step] using hs
          | advance dt => simpa [step, fireDue] using hs
        exact ih (step s e) hes hstep
  exact key evts initCE h (by decide)

/-- Witness for C6: a concrete run of valid events. -/
theorem activeTab_always_valid_witness :
    (∀ e ∈ ([.select "python-api", .copySuccess, .advance 2000,
        .select "openai-plugin"] : List CEEvent), validEvent e = true) ∧
    (initCE.activeTab = "multi-llm" ∧
     (run initCE [.select "python-api", .copySuccess, .advance 2000,
        .select "openai-plugin"]).activeTab ∈ exampleIds) :=
  ⟨by decide, activeTab_always_valid
    [.select "python-api", .copySuccess, .advance 2000,
     .select "openai-plugin"] (by decide)⟩
